import Mathlib

/-!
# Verification of the buildingdetection repository

Shallow embedding of the two source files of the repository.

* `ext.py` is a CSV relabeling script: it shuffles the rows
  (`df.sample(frac=1, random_state=42).reset_index(drop=True)`), assigns a
  synthetic confidence tier (0.0 / 0.5 / 1.0) to a 10% / 20% / remainder
  split of the row positions, derives a color column from the confidence,
  and writes the result.  The Python float products `0.10 * n` and
  `0.20 * n` are modeled exactly: the literal `0.1` denotes the IEEE-754
  double `M10 / 2 ^ 56`, the literal `0.2` denotes `M10 / 2 ^ 55`, and a
  float product is the exact rational product rounded to the nearest double
  (53 significant bits, ties to even).  The shuffle is modeled as an
  arbitrary permutation of the rows (the seeded Mersenne-Twister order is
  external to the program text).

* `main.py` is a FastAPI service with four endpoints and a module-level
  startup sequence; calls into the Earth Engine SDK, the Cloud Storage SDK
  and the loaded fastai model are modeled as oracle outcomes supplied per
  request, while all control flow of the handlers themselves is embedded
  directly.
-/

namespace Ext

/-- Numerator of the IEEE-754 double nearest to 0.1: the literal `0.1` in
`ext.py` denotes exactly `M10 / 2 ^ 56`, and `0.2` denotes exactly
`M10 / 2 ^ 55`. -/
def M10 : ℕ := 7205759403792794

/-- Fuel-driven binary logarithm, kept structurally recursive so that the
kernel can evaluate it on literals. -/
def log2F : ℕ → ℕ → ℕ
  | 0, _ => 0
  | fuel + 1, n => if n ≤ 1 then 0 else log2F fuel (n / 2) + 1

/-- `lg n` is the floor of the binary logarithm of `n` (and `0` at `0`). -/
def lg (n : ℕ) : ℕ := log2F n n

/-- Round a rational to the nearest integer, ties to even. -/
def roundHalfEven (x : ℚ) : ℤ :=
  if Int.fract x < 1 / 2 then ⌊x⌋
  else if 1 / 2 < Int.fract x then ⌊x⌋ + 1
  else if ⌊x⌋ % 2 = 0 then ⌊x⌋ else ⌊x⌋ + 1

/-- The IEEE-754 double nearest to `t / 2 ^ s`, as an exact rational:
round-to-nearest-even at 53 significant bits.  For `t < 2 ^ 53` the value
`t / 2 ^ s` is already representable and is returned unchanged. -/
def fl (t s : ℕ) : ℚ :=
  if t = 0 then 0
  else if lg t ≤ 52 then (t : ℚ) / 2 ^ s
  else ((roundHalfEven ((t : ℚ) / 2 ^ (lg t - 52)) : ℚ) * 2 ^ (lg t - 52)) / 2 ^ s

/-- `red_n = int(0.10 * n)` (`ext.py` line 11): the double product
`float(n) * 0.1` truncated to an integer.  `n` is exact as a double for
`n < 2 ^ 53`, so the product is `fl (n * M10) 56`. -/
def red_n (n : ℕ) : ℕ := (⌊fl (n * M10) 56⌋).toNat

/-- `yellow_n = int(0.20 * n)` (`ext.py` line 12). -/
def yellow_n (n : ℕ) : ℕ := (⌊fl (n * M10) 55⌋).toNat

/-- `green_n = n - red_n - yellow_n` (`ext.py` line 13). -/
def green_n (n : ℕ) : ℕ := n - red_n n - yellow_n n

/-- Confidence assigned to the row at position `i` of the shuffled frame
(`ext.py` lines 16-18): positions `0 .. red_n - 1` get `0.0`, positions
`red_n .. red_n + yellow_n - 1` get `0.5`, and all later positions get
`1.0`.  The three `df.loc` slices are label-inclusive on the reset
`RangeIndex`, which is exactly this positional partition. -/
def confidenceAt (n i : ℕ) : ℚ :=
  if i < red_n n then 0
  else if i < red_n n + yellow_n n then 1 / 2
  else 1

/-- `df['color'] = df['confidence'].map({1.0: 'green', 0.5: 'yellow',
0.0: 'red'})` (`ext.py` line 21); values outside the dictionary would map
to NaN, modeled as `none`. -/
def colorMap (c : ℚ) : Option String :=
  if c = 1 then some "green"
  else if c = 1 / 2 then some "yellow"
  else if c = 0 then some "red"
  else none

/-- The relabeling transformation applied to the already-shuffled row list
`s`: every row keeps its original cell contents (`α`) and gains a
confidence and a color cell.  `ext.py` lines 10-21. -/
def relabel {α : Type} (s : List α) : List (α × ℚ × Option String) :=
  ((List.range s.length).zip s).map
    (fun p => (p.2, confidenceAt s.length p.1, colorMap (confidenceAt s.length p.1)))

/-! Basic facts about the helper functions of the float model. -/

lemma log2F_eq : ∀ (fuel n : ℕ), n ≤ fuel → log2F fuel n = Nat.log2 n := by
  intro fuel
  induction fuel with
  | zero =>
    intro n hn
    have hn0 : n = 0 := by omega
    subst hn0
    rw [Nat.log2]
    simp [log2F]
  | succ fuel ih =>
    intro n hn
    by_cases h1 : n ≤ 1
    · have h2 : ¬ n ≥ 2 := by omega
      rw [log2F, if_pos h1, Nat.log2, if_neg h2]
    · have h2 : n ≥ 2 := by omega
      have h3 : n / 2 ≤ fuel := by omega
      rw [log2F, if_neg h1, Nat.log2, if_pos h2, ih (n / 2) h3]

lemma lg_eq (n : ℕ) : lg n = Nat.log2 n := log2F_eq n n le_rfl

lemma lg_le_self_pow (n : ℕ) (h : n ≠ 0) : 2 ^ lg n ≤ n := by
  rw [lg_eq]
  exact (Nat.le_log2 h).mp le_rfl

lemma lt_lg_succ_pow (n : ℕ) (h : n ≠ 0) : n < 2 ^ (lg n + 1) := by
  rw [lg_eq]
  exact (Nat.log2_lt h).mp (Nat.lt_succ_self _)

lemma lg_lt_of_lt_pow {n k : ℕ} (h : n ≠ 0) (hk : n < 2 ^ k) : lg n < k := by
  rw [lg_eq]
  exact (Nat.log2_lt h).mpr hk

lemma abs_roundHalfEven_sub_le (x : ℚ) : |(roundHalfEven x : ℚ) - x| ≤ 1 / 2 := by
  have h0 : 0 ≤ Int.fract x := Int.fract_nonneg x
  have h1 : Int.fract x < 1 := Int.fract_lt_one x
  have hx : (⌊x⌋ : ℚ) + Int.fract x = x := Int.floor_add_fract x
  unfold roundHalfEven
  split_ifs <;> (rw [abs_le]; constructor <;> push_cast <;> linarith)

lemma roundHalfEven_int_add (K : ℤ) (r : ℚ) (h0 : 0 ≤ r) (h1 : r < 1 / 2) :
    roundHalfEven ((K : ℚ) + r) = K := by
  have hfr : Int.fract ((K : ℚ) + r) = r := by
    rw [Int.fract_int_add, Int.fract_eq_self.mpr ⟨h0, by linarith⟩]
  have hfl : ⌊(K : ℚ) + r⌋ = K := by
    rw [Int.floor_int_add, Int.floor_eq_zero_iff.mpr (Set.mem_Ico.mpr ⟨h0, by linarith⟩),
      add_zero]
  unfold roundHalfEven
  rw [hfr, hfl, if_pos h1]

set_option maxHeartbeats 1600000 in
/-- Over the full range of feasible row counts, the exactly-modeled float
computation `int(0.10 * n)` agrees with `⌊n / 10⌋`. -/
lemma red_n_eq (n : ℕ) (hn : n ≤ 2 ^ 49) : red_n n = n / 10 := by
  rcases Nat.eq_zero_or_pos n with rfl | hpos
  · simp [red_n, fl]
  have hM : M10 = 7205759403792794 := rfl
  set t := n * M10 with ht
  have htval : t = n * 7205759403792794 := by rw [ht, hM]
  have ht0 : t ≠ 0 := by
    have : (7205759403792794 : ℕ) ≠ 0 := by norm_num
    rw [htval]
    exact Nat.mul_ne_zero (by omega) this
  have hlog : lg t = Nat.log2 t := lg_eq t
  by_cases hL : lg t ≤ 52
  · -- the product is below 2 ^ 53 and therefore exactly representable
    have hfl : fl t 56 = (t : ℚ) / 2 ^ 56 := by rw [fl, if_neg ht0, if_pos hL]
    have htlt : t < 2 ^ 53 := by
      have h1 : t < 2 ^ (lg t + 1) := lt_lg_succ_pow t ht0
      have h2 : lg t + 1 ≤ 53 := by omega
      exact lt_of_lt_of_le h1 (Nat.pow_le_pow_right (by norm_num) h2)
    have hfloor : (⌊(t : ℚ) / 2 ^ 56⌋) = ((t / 2 ^ 56 : ℕ) : ℤ) := by
      rw [show ((2 : ℚ) ^ 56) = ((2 ^ 56 : ℕ) : ℚ) by push_cast; ring]
      exact_mod_cast Rat.floor_natCast_div_natCast t (2 ^ 56)
    simp only [red_n, ← ht]
    rw [hfl, hfloor, Int.toNat_natCast]
    rw [htval] at htlt ⊢
    have e56 : (2 : ℕ) ^ 56 = 72057594037927936 := by norm_num
    have e53 : (2 : ℕ) ^ 53 = 9007199254740992 := by norm_num
    rw [e56]
    rw [e53] at htlt
    omega
  · -- the product needs to be rounded to 53 significant bits
    push_neg at hL
    set P := lg t - 52 with hP
    clear_value P
    have hP1 : 1 ≤ P := by omega
    have hPle : P ≤ 56 := by
      have ht103 : t < 2 ^ 103 := by
        calc t = n * 7205759403792794 := htval
          _ ≤ 2 ^ 49 * 7205759403792794 := Nat.mul_le_mul_right _ hn
          _ < 2 ^ 103 := by norm_num
      have hllt : lg t < 103 := lg_lt_of_lt_pow ht0 ht103
      omega
    have hfl : fl t 56 = ((roundHalfEven ((t : ℚ) / 2 ^ P) : ℚ) * 2 ^ P) / 2 ^ 56 := by
      rw [fl, if_neg ht0, if_neg (by omega), ← hP]
    set x : ℚ := (t : ℚ) / 2 ^ P with hx
    set m : ℤ := roundHalfEven x with hm
    have habs : |(m : ℚ) - x| ≤ 1 / 2 := abs_roundHalfEven_sub_le x
    have h2P : (0 : ℚ) < 2 ^ P := by positivity
    have hxm : x * 2 ^ P = (t : ℚ) := div_mul_cancel₀ _ (ne_of_gt h2P)
    have hhalf : (1 / 2 : ℚ) * 2 ^ P = 2 ^ (P - 1) := by
      have hsplit : (2 : ℚ) ^ P = 2 ^ (P - 1) * 2 := by
        rw [← pow_succ]
        congr 1
        omega
      rw [hsplit]
      ring
    have hub : (m : ℚ) * 2 ^ P ≤ (t : ℚ) + 2 ^ (P - 1) := by
      have h1 : (m : ℚ) - x ≤ 1 / 2 := (abs_le.mp habs).2
      have h2 : (m : ℚ) * 2 ^ P ≤ (x + 1 / 2) * 2 ^ P :=
        mul_le_mul_of_nonneg_right (by linarith) (le_of_lt h2P)
      calc (m : ℚ) * 2 ^ P ≤ (x + 1 / 2) * 2 ^ P := h2
        _ = x * 2 ^ P + (1 / 2) * 2 ^ P := by ring
        _ = (t : ℚ) + 2 ^ (P - 1) := by rw [hxm, hhalf]
    have hlb : (t : ℚ) - 2 ^ (P - 1) ≤ (m : ℚ) * 2 ^ P := by
      have h1 : -(1 / 2) ≤ (m : ℚ) - x := (abs_le.mp habs).1
      have h2 : (x - 1 / 2) * 2 ^ P ≤ (m : ℚ) * 2 ^ P :=
        mul_le_mul_of_nonneg_right (by linarith) (le_of_lt h2P)
      calc (t : ℚ) - 2 ^ (P - 1) = x * 2 ^ P - (1 / 2) * 2 ^ P := by rw [hxm, hhalf]
        _ = (x - 1 / 2) * 2 ^ P := by ring
        _ ≤ (m : ℚ) * 2 ^ P := h2
    have hubZ : m * 2 ^ P ≤ (t : ℤ) + 2 ^ (P - 1) := by exact_mod_cast hub
    have hlbZ : (t : ℤ) - 2 ^ (P - 1) ≤ m * 2 ^ P := by exact_mod_cast hlb
    have hWt : (2 : ℤ) ^ (P - 1) * 2 ^ 53 ≤ (t : ℤ) := by
      have h1 : 2 ^ lg t ≤ t := lg_le_self_pow t ht0
      have h2 : (P - 1) + 53 = lg t := by omega
      calc (2 : ℤ) ^ (P - 1) * 2 ^ 53 = 2 ^ ((P - 1) + 53) := by rw [pow_add]
        _ = 2 ^ lg t := by rw [h2]
        _ ≤ (t : ℤ) := by exact_mod_cast h1
    have htup : t < 2 ^ (P + 53) := by
      have h1 : t < 2 ^ (lg t + 1) := lt_lg_succ_pow t ht0
      have h2 : lg t + 1 = P + 53 := by omega
      rw [← h2]
      exact h1
    by_cases hf : n % 10 = 0
    · -- an exact multiple of 10: the rounded product is exactly n / 10
      set k := n / 10 with hk
      have hkn : n = 10 * k := by omega
      have e56 : (2 : ℕ) ^ 56 = 72057594037927936 := by norm_num
      have htk : t = k * 2 ^ 56 + 4 * k := by
        rw [htval, hkn, e56]
        ring
      have h8k : 8 * k < 2 ^ P := by
        have h1 : k * 2 ^ 56 < 2 ^ (P + 53) := by
          have hle : k * 2 ^ 56 ≤ t := by rw [htk]; exact Nat.le_add_right _ _
          exact lt_of_le_of_lt hle htup
        have h2 : 8 * k * 2 ^ 53 < 2 ^ P * 2 ^ 53 := by
          calc 8 * k * 2 ^ 53 = k * 2 ^ 56 := by ring
            _ < 2 ^ (P + 53) := h1
            _ = 2 ^ P * 2 ^ 53 := by rw [pow_add]
        exact Nat.lt_of_mul_lt_mul_right h2
      have hsplitQ : (2 : ℚ) ^ (56 - P) * 2 ^ P = (2 : ℚ) ^ 56 := by
        rw [← pow_add]
        congr 1
        omega
      set K : ℤ := (k : ℤ) * 2 ^ (56 - P) with hK
      have hKQ : (K : ℚ) * 2 ^ P = (k : ℚ) * 2 ^ 56 := by
        push_cast [hK]
        rw [mul_assoc, hsplitQ]
      have hxval : x = (K : ℚ) + (4 * k : ℚ) / 2 ^ P := by
        have hexp : ((K : ℚ) + (4 * k : ℚ) / 2 ^ P) * 2 ^ P = (K : ℚ) * 2 ^ P + 4 * k := by
          rw [add_mul, div_mul_cancel₀ _ (ne_of_gt h2P)]
        rw [hx, div_eq_iff (ne_of_gt h2P), hexp, hKQ]
        exact_mod_cast htk
      have hr0 : (0 : ℚ) ≤ (4 * k : ℚ) / 2 ^ P :=
        div_nonneg (mul_nonneg (by norm_num) (Nat.cast_nonneg k)) (le_of_lt h2P)
      have hr1 : (4 * k : ℚ) / 2 ^ P < 1 / 2 := by
        rw [div_lt_iff₀ h2P]
        have hcast : ((8 * k : ℕ) : ℚ) < ((2 ^ P : ℕ) : ℚ) := by exact_mod_cast h8k
        push_cast at hcast
        linarith
      have hmK : m = K := by
        rw [hm, hxval]
        exact roundHalfEven_int_add K _ hr0 hr1
      have hd : ((m : ℚ) * 2 ^ P) / 2 ^ 56 = (k : ℚ) := by
        rw [hmK, hKQ, mul_div_assoc, div_self (by positivity : ((2 : ℚ) ^ 56) ≠ 0), mul_one]
      simp only [red_n, ← ht]
      rw [hfl, hd, Int.floor_natCast, Int.toNat_natCast]
    · -- not a multiple of 10: the half-ulp error bound pins the floor
      have hfloor : ⌊((m : ℚ) * 2 ^ P) / 2 ^ 56⌋ = ((n / 10 : ℕ) : ℤ) := by
        rw [Int.floor_eq_iff]
        have e56 : (2 : ℤ) ^ 56 = 72057594037927936 := by norm_num
        have e53 : (2 : ℤ) ^ 53 = 9007199254740992 := by norm_num
        have e49 : (2 : ℕ) ^ 49 = 562949953421312 := by norm_num
        constructor
        · rw [le_div_iff₀ (by positivity : (0 : ℚ) < 2 ^ 56)]
          have hZ : ((n / 10 : ℕ) : ℤ) * 2 ^ 56 ≤ m * 2 ^ P := by
            rw [e56]
            rw [e49] at hn
            generalize hV : m * 2 ^ P = V at hlbZ ⊢
            generalize hW : (2 : ℤ) ^ (P - 1) = W at hlbZ hWt
            rw [e53] at hWt
            rw [htval] at hlbZ hWt
            omega
          exact_mod_cast hZ
        · rw [div_lt_iff₀ (by positivity : (0 : ℚ) < 2 ^ 56)]
          have hZ : m * 2 ^ P < (((n / 10 : ℕ) : ℤ) + 1) * 2 ^ 56 := by
            rw [e56]
            rw [e49] at hn
            generalize hV : m * 2 ^ P = V at hubZ ⊢
            generalize hW : (2 : ℤ) ^ (P - 1) = W at hubZ hWt
            rw [e53] at hWt
            rw [htval] at hubZ hWt
            omega
          exact_mod_cast hZ
      simp only [red_n, ← ht]
      rw [hfl, hfloor, Int.toNat_natCast]

set_option maxHeartbeats 1600000 in
/-- Over the full range of feasible row counts, the exactly-modeled float
computation `int(0.20 * n)` agrees with `⌊n / 5⌋`. -/
lemma yellow_n_eq (n : ℕ) (hn : n ≤ 2 ^ 49) : yellow_n n = n / 5 := by
  rcases Nat.eq_zero_or_pos n with rfl | hpos
  · simp [yellow_n, fl]
  have hM : M10 = 7205759403792794 := rfl
  set t := n * M10 with ht
  have htval : t = n * 7205759403792794 := by rw [ht, hM]
  have ht0 : t ≠ 0 := by
    have : (7205759403792794 : ℕ) ≠ 0 := by norm_num
    rw [htval]
    exact Nat.mul_ne_zero (by omega) this
  have hlog : lg t = Nat.log2 t := lg_eq t
  by_cases hL : lg t ≤ 52
  · -- the product is below 2 ^ 53 and therefore exactly representable
    have hfl : fl t 55 = (t : ℚ) / 2 ^ 55 := by rw [fl, if_neg ht0, if_pos hL]
    have htlt : t < 2 ^ 53 := by
      have h1 : t < 2 ^ (lg t + 1) := lt_lg_succ_pow t ht0
      have h2 : lg t + 1 ≤ 53 := by omega
      exact lt_of_lt_of_le h1 (Nat.pow_le_pow_right (by norm_num) h2)
    have hfloor : (⌊(t : ℚ) / 2 ^ 55⌋) = ((t / 2 ^ 55 : ℕ) : ℤ) := by
      rw [show ((2 : ℚ) ^ 55) = ((2 ^ 55 : ℕ) : ℚ) by push_cast; ring]
      exact_mod_cast Rat.floor_natCast_div_natCast t (2 ^ 55)
    simp only [yellow_n, ← ht]
    rw [hfl, hfloor, Int.toNat_natCast]
    rw [htval] at htlt ⊢
    have e55 : (2 : ℕ) ^ 55 = 36028797018963968 := by norm_num
    have e53 : (2 : ℕ) ^ 53 = 9007199254740992 := by norm_num
    rw [e55]
    rw [e53] at htlt
    omega
  · -- the product needs to be rounded to 53 significant bits
    push_neg at hL
    set P := lg t - 52 with hP
    clear_value P
    have hP1 : 1 ≤ P := by omega
    have hPle : P ≤ 50 := by
      have ht103 : t < 2 ^ 103 := by
        calc t = n * 7205759403792794 := htval
          _ ≤ 2 ^ 49 * 7205759403792794 := Nat.mul_le_mul_right _ hn
          _ < 2 ^ 103 := by norm_num
      have hllt : lg t < 103 := lg_lt_of_lt_pow ht0 ht103
      omega
    have hfl : fl t 55 = ((roundHalfEven ((t : ℚ) / 2 ^ P) : ℚ) * 2 ^ P) / 2 ^ 55 := by
      rw [fl, if_neg ht0, if_neg (by omega), ← hP]
    set x : ℚ := (t : ℚ) / 2 ^ P with hx
    set m : ℤ := roundHalfEven x with hm
    have habs : |(m : ℚ) - x| ≤ 1 / 2 := abs_roundHalfEven_sub_le x
    have h2P : (0 : ℚ) < 2 ^ P := by positivity
    have hxm : x * 2 ^ P = (t : ℚ) := div_mul_cancel₀ _ (ne_of_gt h2P)
    have hhalf : (1 / 2 : ℚ) * 2 ^ P = 2 ^ (P - 1) := by
      have hsplit : (2 : ℚ) ^ P = 2 ^ (P - 1) * 2 := by
        rw [← pow_succ]
        congr 1
        omega
      rw [hsplit]
      ring
    have hub : (m : ℚ) * 2 ^ P ≤ (t : ℚ) + 2 ^ (P - 1) := by
      have h1 : (m : ℚ) - x ≤ 1 / 2 := (abs_le.mp habs).2
      have h2 : (m : ℚ) * 2 ^ P ≤ (x + 1 / 2) * 2 ^ P :=
        mul_le_mul_of_nonneg_right (by linarith) (le_of_lt h2P)
      calc (m : ℚ) * 2 ^ P ≤ (x + 1 / 2) * 2 ^ P := h2
        _ = x * 2 ^ P + (1 / 2) * 2 ^ P := by ring
        _ = (t : ℚ) + 2 ^ (P - 1) := by rw [hxm, hhalf]
    have hlb : (t : ℚ) - 2 ^ (P - 1) ≤ (m : ℚ) * 2 ^ P := by
      have h1 : -(1 / 2) ≤ (m : ℚ) - x := (abs_le.mp habs).1
      have h2 : (x - 1 / 2) * 2 ^ P ≤ (m : ℚ) * 2 ^ P :=
        mul_le_mul_of_nonneg_right (by linarith) (le_of_lt h2P)
      calc (t : ℚ) - 2 ^ (P - 1) = x * 2 ^ P - (1 / 2) * 2 ^ P := by rw [hxm, hhalf]
        _ = (x - 1 / 2) * 2 ^ P := by ring
        _ ≤ (m : ℚ) * 2 ^ P := h2
    have hubZ : m * 2 ^ P ≤ (t : ℤ) + 2 ^ (P - 1) := by exact_mod_cast hub
    have hlbZ : (t : ℤ) - 2 ^ (P - 1) ≤ m * 2 ^ P := by exact_mod_cast hlb
    have hWt : (2 : ℤ) ^ (P - 1) * 2 ^ 53 ≤ (t : ℤ) := by
      have h1 : 2 ^ lg t ≤ t := lg_le_self_pow t ht0
      have h2 : (P - 1) + 53 = lg t := by omega
      calc (2 : ℤ) ^ (P - 1) * 2 ^ 53 = 2 ^ ((P - 1) + 53) := by rw [pow_add]
        _ = 2 ^ lg t := by rw [h2]
        _ ≤ (t : ℤ) := by exact_mod_cast h1
    have htup : t < 2 ^ (P + 53) := by
      have h1 : t < 2 ^ (lg t + 1) := lt_lg_succ_pow t ht0
      have h2 : lg t + 1 = P + 53 := by omega
      rw [← h2]
      exact h1
    by_cases hf : n % 5 = 0
    · -- an exact multiple of 5: the rounded product is exactly n / 5
      set k := n / 5 with hk
      have hkn : n = 5 * k := by omega
      have e55 : (2 : ℕ) ^ 55 = 36028797018963968 := by norm_num
      have htk : t = k * 2 ^ 55 + 2 * k := by
        rw [htval, hkn, e55]
        ring
      have h4k : 4 * k < 2 ^ P := by
        have h1 : k * 2 ^ 55 < 2 ^ (P + 53) := by
          have hle : k * 2 ^ 55 ≤ t := by rw [htk]; exact Nat.le_add_right _ _
          exact lt_of_le_of_lt hle htup
        have h2 : 4 * k * 2 ^ 53 < 2 ^ P * 2 ^ 53 := by
          calc 4 * k * 2 ^ 53 = k * 2 ^ 55 := by ring
            _ < 2 ^ (P + 53) := h1
            _ = 2 ^ P * 2 ^ 53 := by rw [pow_add]
        exact Nat.lt_of_mul_lt_mul_right h2
      have hsplitQ : (2 : ℚ) ^ (55 - P) * 2 ^ P = (2 : ℚ) ^ 55 := by
        rw [← pow_add]
        congr 1
        omega
      set K : ℤ := (k : ℤ) * 2 ^ (55 - P) with hK
      have hKQ : (K : ℚ) * 2 ^ P = (k : ℚ) * 2 ^ 55 := by
        push_cast [hK]
        rw [mul_assoc, hsplitQ]
      have hxval : x = (K : ℚ) + (2 * k : ℚ) / 2 ^ P := by
        have hexp : ((K : ℚ) + (2 * k : ℚ) / 2 ^ P) * 2 ^ P = (K : ℚ) * 2 ^ P + 2 * k := by
          rw [add_mul, div_mul_cancel₀ _ (ne_of_gt h2P)]
        rw [hx, div_eq_iff (ne_of_gt h2P), hexp, hKQ]
        exact_mod_cast htk
      have hr0 : (0 : ℚ) ≤ (2 * k : ℚ) / 2 ^ P :=
        div_nonneg (mul_nonneg (by norm_num) (Nat.cast_nonneg k)) (le_of_lt h2P)
      have hr1 : (2 * k : ℚ) / 2 ^ P < 1 / 2 := by
        rw [div_lt_iff₀ h2P]
        have hcast : ((4 * k : ℕ) : ℚ) < ((2 ^ P : ℕ) : ℚ) := by exact_mod_cast h4k
        push_cast at hcast
        linarith
      have hmK : m = K := by
        rw [hm, hxval]
        exact roundHalfEven_int_add K _ hr0 hr1
      have hd : ((m : ℚ) * 2 ^ P) / 2 ^ 55 = (k : ℚ) := by
        rw [hmK, hKQ, mul_div_assoc, div_self (by positivity : ((2 : ℚ) ^ 55) ≠ 0), mul_one]
      simp only [yellow_n, ← ht]
      rw [hfl, hd, Int.floor_natCast, Int.toNat_natCast]
    · -- not a multiple of 5: the half-ulp error bound pins the floor
      have hfloor : ⌊((m : ℚ) * 2 ^ P) / 2 ^ 55⌋ = ((n / 5 : ℕ) : ℤ) := by
        rw [Int.floor_eq_iff]
        have e55 : (2 : ℤ) ^ 55 = 36028797018963968 := by norm_num
        have e53 : (2 : ℤ) ^ 53 = 9007199254740992 := by norm_num
        have e49 : (2 : ℕ) ^ 49 = 562949953421312 := by norm_num
        constructor
        · rw [le_div_iff₀ (by positivity : (0 : ℚ) < 2 ^ 55)]
          have hZ : ((n / 5 : ℕ) : ℤ) * 2 ^ 55 ≤ m * 2 ^ P := by
            rw [e55]
            rw [e49] at hn
            generalize hV : m * 2 ^ P = V at hlbZ ⊢
            generalize hW : (2 : ℤ) ^ (P - 1) = W at hlbZ hWt
            rw [e53] at hWt
            rw [htval] at hlbZ hWt
            omega
          exact_mod_cast hZ
        · rw [div_lt_iff₀ (by positivity : (0 : ℚ) < 2 ^ 55)]
          have hZ : m * 2 ^ P < (((n / 5 : ℕ) : ℤ) + 1) * 2 ^ 55 := by
            rw [e55]
            rw [e49] at hn
            generalize hV : m * 2 ^ P = V at hubZ ⊢
            generalize hW : (2 : ℤ) ^ (P - 1) = W at hubZ hWt
            rw [e53] at hWt
            rw [htval] at hubZ hWt
            omega
          exact_mod_cast hZ
      simp only [yellow_n, ← ht]
      rw [hfl, hfloor, Int.toNat_natCast]

/-! Counting rows by confidence tier. -/

lemma countP_range_Ico (n a b : ℕ) :
    (List.range n).countP (fun i => decide (a ≤ i ∧ i < b)) = min b n - min a n := by
  induction n with
  | zero => simp
  | succ n ih =>
    rw [List.range_succ, List.countP_append, ih]
    simp only [List.countP_cons, List.countP_nil, decide_eq_true_eq, Nat.zero_add]
    split_ifs with h
    · omega
    · omega

lemma countP_zip_fst {α : Type} (q : ℕ → Bool) :
    ∀ (l : List ℕ) (s : List α), l.length = s.length →
      (l.zip s).countP (fun p => q p.1) = l.countP q := by
  intro l
  induction l with
  | nil =>
    intro s h
    simp
  | cons a l ih =>
    intro s h
    cases s with
    | nil => simp at h
    | cons b s =>
      rw [List.zip_cons_cons, List.countP_cons, List.countP_cons, ih s (by simpa using h)]

lemma countP_relabel_conf {α : Type} (s : List α) (c : ℚ) :
    (relabel s).countP (fun r => decide (r.2.1 = c)) =
      (List.range s.length).countP (fun i => decide (confidenceAt s.length i = c)) := by
  rw [relabel, List.countP_map]
  exact countP_zip_fst (fun i => decide (confidenceAt s.length i = c)) _ s (by simp)

lemma confidenceAt_eq_zero (n i : ℕ) : confidenceAt n i = 0 ↔ i < red_n n := by
  unfold confidenceAt
  split_ifs with h1 h2
  · exact iff_of_true rfl h1
  · exact iff_of_false (by norm_num) h1
  · exact iff_of_false (by norm_num) h1

lemma confidenceAt_eq_half (n i : ℕ) :
    confidenceAt n i = 1 / 2 ↔ (red_n n ≤ i ∧ i < red_n n + yellow_n n) := by
  unfold confidenceAt
  split_ifs with h1 h2
  · exact iff_of_false (by norm_num) (by omega)
  · exact iff_of_true rfl ⟨by omega, h2⟩
  · exact iff_of_false (by norm_num) (by omega)

lemma confidenceAt_eq_one (n i : ℕ) :
    confidenceAt n i = 1 ↔ red_n n + yellow_n n ≤ i := by
  unfold confidenceAt
  split_ifs with h1 h2
  · exact iff_of_false (by norm_num) (by omega)
  · exact iff_of_false (by norm_num) (by omega)
  · exact iff_of_true rfl (by omega)

lemma count_confidence_zero {α : Type} (s : List α) (hn : s.length ≤ 2 ^ 49) :
    (relabel s).countP (fun r => decide (r.2.1 = 0)) = s.length / 10 := by
  rw [countP_relabel_conf]
  have hcong : (List.range s.length).countP
        (fun i => decide (confidenceAt s.length i = 0)) =
      (List.range s.length).countP (fun i => decide (0 ≤ i ∧ i < red_n s.length)) :=
    List.countP_congr (fun i _ => by
      simp only [decide_eq_true_eq]
      rw [confidenceAt_eq_zero]
      omega)
  rw [hcong, countP_range_Ico s.length 0 (red_n s.length)]
  have hred : red_n s.length = s.length / 10 := red_n_eq s.length hn
  omega

lemma count_confidence_half {α : Type} (s : List α) (hn : s.length ≤ 2 ^ 49) :
    (relabel s).countP (fun r => decide (r.2.1 = 1 / 2)) = s.length / 5 := by
  rw [countP_relabel_conf]
  have hcong : (List.range s.length).countP
        (fun i => decide (confidenceAt s.length i = 1 / 2)) =
      (List.range s.length).countP
        (fun i => decide (red_n s.length ≤ i ∧ i < red_n s.length + yellow_n s.length)) :=
    List.countP_congr (fun i _ => by
      simp only [decide_eq_true_eq]
      exact confidenceAt_eq_half s.length i)
  rw [hcong, countP_range_Ico s.length (red_n s.length) (red_n s.length + yellow_n s.length)]
  have hred : red_n s.length = s.length / 10 := red_n_eq s.length hn
  have hyel : yellow_n s.length = s.length / 5 := yellow_n_eq s.length hn
  omega

lemma count_confidence_one {α : Type} (s : List α) (hn : s.length ≤ 2 ^ 49) :
    (relabel s).countP (fun r => decide (r.2.1 = 1)) =
      s.length - s.length / 10 - s.length / 5 := by
  rw [countP_relabel_conf]
  have hcong : (List.range s.length).countP
        (fun i => decide (confidenceAt s.length i = 1)) =
      (List.range s.length).countP
        (fun i => decide (red_n s.length + yellow_n s.length ≤ i ∧ i < s.length)) :=
    List.countP_congr (fun i hi => by
      simp only [decide_eq_true_eq]
      rw [confidenceAt_eq_one]
      have : i < s.length := List.mem_range.mp hi
      omega)
  rw [hcong, countP_range_Ico s.length (red_n s.length + yellow_n s.length) s.length]
  have hred : red_n s.length = s.length / 10 := red_n_eq s.length hn
  have hyel : yellow_n s.length = s.length / 5 := yellow_n_eq s.length hn
  omega

/-! Structure of the relabeled frame. -/

lemma colorMap_zero : colorMap 0 = some "red" := by norm_num [colorMap]

lemma colorMap_half : colorMap (1 / 2) = some "yellow" := by norm_num [colorMap]

lemma colorMap_one : colorMap 1 = some "green" := by norm_num [colorMap]

lemma confidenceAt_cases (n i : ℕ) :
    confidenceAt n i = 0 ∨ confidenceAt n i = 1 / 2 ∨ confidenceAt n i = 1 := by
  unfold confidenceAt
  split_ifs <;> simp

lemma relabel_length {α : Type} (s : List α) : (relabel s).length = s.length := by
  rw [relabel]
  simp [List.length_zip]

lemma relabel_map_fst {α : Type} (s : List α) : (relabel s).map (fun r => r.1) = s := by
  rw [relabel, List.map_map]
  have hcomp : ((fun r : α × ℚ × Option String => r.1) ∘
      (fun p : ℕ × α =>
        (p.2, confidenceAt s.length p.1, colorMap (confidenceAt s.length p.1)))) =
      Prod.snd := rfl
  rw [hcomp]
  exact List.map_snd_zip _ _ (by simp)

lemma relabel_color_of_mem {α : Type} (s : List α) (r : α × ℚ × Option String)
    (hr : r ∈ relabel s) :
    (r.2.1 = 0 ∧ r.2.2 = some "red") ∨ (r.2.1 = 1 / 2 ∧ r.2.2 = some "yellow") ∨
      (r.2.1 = 1 ∧ r.2.2 = some "green") := by
  rw [relabel] at hr
  obtain ⟨p, hp, rfl⟩ := List.mem_map.mp hr
  dsimp only
  rcases confidenceAt_cases s.length p.1 with h | h | h
  · exact Or.inl ⟨h, by rw [h, colorMap_zero]⟩
  · exact Or.inr (Or.inl ⟨h, by rw [h, colorMap_half]⟩)
  · exact Or.inr (Or.inr ⟨h, by rw [h, colorMap_one]⟩)

end Ext

namespace Main

/-- Opaque handle for an initialized `google.cloud.storage.Client`. -/
abbrev StorageClient := Unit

/-- Opaque handle for the loaded fastai learner. -/
abbrev Model := Unit

/-- An AOI GeoJSON object; the handlers only ever read its
`coordinates` member, modeled as an opaque payload string. -/
structure GeoJson where
  coordinates : String
deriving DecidableEq

/-- Python truthiness of an optional string: `None` and the empty string
are falsy, every other string is truthy. -/
def pyTruthyStr : Option String → Bool
  | none => false
  | some s => !(s == "")

/-- An exception raised by a call into the Earth Engine SDK
(`ee.EEException`) or any other exception (`Exception`). -/
inductive PyErr where
  | eeException (msg : String)
  | other (msg : String)
deriving DecidableEq

/-- Outcome of a handler: a JSON body with HTTP 200, or an
`HTTPException(status_code, detail)`. -/
inductive HttpResult (β : Type) where
  | ok (body : β)
  | error (status : ℕ) (detail : String)
deriving DecidableEq

/-- The HTTP status code of a handler outcome. -/
def HttpResult.status {β : Type} : HttpResult β → ℕ
  | .ok _ => 200
  | .error s _ => s

/-- The two environment values read at startup (`main.py` lines 21, 34):
`GEE_SERVICE_ACCOUNT_KEY_PATH` and `GCS_EXPORT_BUCKET_NAME`;
`none` models an unset variable. -/
structure Env where
  gee_key_path : Option String
  gcs_bucket : Option String

/-- Oracle outcomes of the external calls made during module startup:
whether `os.path.exists` succeeds on the key path, and the results of
`ee.Authenticate`/`ee.Initialize`, `storage.Client()` and
`load_learner`. -/
structure World where
  key_file_exists : Bool
  ee_init : Except String Unit
  storage_init : Except String StorageClient
  model_load : Except String Model

/-- The module-level state left behind by a completed startup: the
`storage_client` and `learn` globals (each `None` on failure). -/
structure AppState where
  storage_client : Option StorageClient
  learn : Option Model
deriving DecidableEq

/-- Either the module raised during import (no server runs), or the app
starts serving with the given global state. -/
inductive StartupResult where
  | fatal (msg : String)
  | started (st : AppState)
deriving DecidableEq

/-- Message of the `ValueError` raised at `main.py` line 23. -/
def keyPathError : String :=
  "GEE_SERVICE_ACCOUNT_KEY_PATH not set or file not found in .env"

/-- The module-level startup sequence of `main.py` (lines 21-71): a falsy
or nonexistent key path raises `ValueError` (fatal); the Earth Engine
initialization failure is printed and swallowed (line 29-31); the storage
client is only created when the bucket name is truthy and becomes `None`
if its constructor raises (lines 34-44); the model handle becomes `None`
if `load_learner` raises (lines 66-71). -/
def startup (env : Env) (w : World) : StartupResult :=
  if !pyTruthyStr env.gee_key_path then .fatal keyPathError
  else if !w.key_file_exists then .fatal keyPathError
  else
    let storage_client : Option StorageClient :=
      if pyTruthyStr env.gcs_bucket then
        match w.storage_init with
        | .ok c => some c
        | .error _ => none
      else none
    let learn : Option Model :=
      match w.model_load with
      | .ok m => some m
      | .error _ => none
    .started ⟨storage_client, learn⟩

/-- Response body of `GET /` (`main.py` lines 76-78). -/
structure RootBody where
  message : String
deriving DecidableEq

/-- The fixed liveness message returned by the root endpoint. -/
def rootMessage : String :=
  "FastAPI Earth Engine and Floor Detector Integration is running!"

/-- Handler of `GET /` (`main.py` lines 76-78).  It reads neither global,
but the globals are passed in so that independence can be stated. -/
def root (learn : Option Model) (storage_client : Option StorageClient) :
    HttpResult RootBody :=
  .ok ⟨rootMessage⟩

/-- Request body of `POST /get_gee_map_layer`: the four `data.get` reads
of `main.py` lines 82-85 (`none` models an absent key). -/
structure MapLayerRequest where
  layer_type : Option String
  aoi_geojson : Option GeoJson
  start_date : Option String
  end_date : Option String

/-- The two mapid/token pairs produced by the `getMapId` calls. -/
structure MapIds where
  highlight_mapid : String
  highlight_token : String
  base_mapid : String
  base_token : String
deriving DecidableEq

/-- Response body of a successful `POST /get_gee_map_layer`. -/
structure MapLayerBody where
  highlight_mapid : String
  highlight_token : String
  base_mapid : String
  base_token : String
  tile_url_format : String
deriving DecidableEq

/-- The constant tile URL template of `main.py` line 113. -/
def tileUrlFormat : String :=
  "https://earthengine.googleapis.com/v1alpha/projects/earthengine-public/maps/{mapid}/tiles/{z}/{x}/{y}?token={token}"

/-- Oracle outcome of the Earth Engine pipeline of
`/get_gee_map_layer` (collection filtering, NDVI, visualization and the
two `getMapId` server calls), for a request whose AOI is present. -/
structure MapWorld where
  pipeline : Except PyErr MapIds

/-- Message of the `TypeError` raised by subscripting `None`
(`aoi_geojson['coordinates']` with `aoi_geojson = None`); quotes elided. -/
def noneSubscriptMsg : String := "NoneType object is not subscriptable"

/-- Handler of `POST /get_gee_map_layer` (`main.py` lines 80-119).  There
is no field validation: with `aoi_geojson` absent the subscription
`aoi_geojson['coordinates']` raises inside the `try`, which the generic
`except Exception` handler turns into HTTP 500; Earth Engine errors
surface as HTTP 500 as well.  The Earth Engine SDK builds computation
objects lazily, so with the AOI present the outcome is the oracle's. -/
def get_gee_map_layer (data : MapLayerRequest) (w : MapWorld) : HttpResult MapLayerBody :=
  match data.aoi_geojson with
  | none => .error 500 ("Server error: " ++ noneSubscriptMsg)
  | some _ =>
    match w.pipeline with
    | .ok ids =>
        .ok ⟨ids.highlight_mapid, ids.highlight_token, ids.base_mapid, ids.base_token,
          tileUrlFormat⟩
    | .error (.eeException m) => .error 500 ("Earth Engine error: " ++ m)
    | .error (.other m) => .error 500 ("Server error: " ++ m)

/-- Request body of `POST /export_gee_image`: the six `export_request.get`
reads of `main.py` lines 126-131 (`none` models an absent key). -/
structure ExportRequest where
  aoi_geojson : Option GeoJson
  start_date : Option String
  end_date : Option String
  file_name_pfx : Option String
  scale : Option ℤ
  file_format : Option String

/-- The arguments passed to `ee.batch.Export.image.toCloudStorage`
(`main.py` lines 153-161). -/
structure ExportTaskParams where
  description : String
  bucket : Option String
  fileNamePfx : String
  scale : ℤ
  region : String
  fileFormat : String
deriving DecidableEq

/-- `ee.Geometry.Polygon(coords).toGeoJSONString()`: serialization of the
geometry built from the request AOI, modeled as its coordinate payload. -/
def toGeoJSONString (g : GeoJson) : String := g.coordinates

/-- The export task parameters computed by the handler: defaulted fields
(`main.py` lines 129-131) and the fixed wiring of lines 153-161. -/
def exportTaskParams (r : ExportRequest) (bucket : Option String) (aoi : GeoJson) :
    ExportTaskParams :=
  ⟨r.file_name_pfx.getD "gee_export", bucket, r.file_name_pfx.getD "gee_export",
    r.scale.getD 30, toGeoJSONString aoi, r.file_format.getD "GeoTIFF"⟩

/-- Oracle outcomes of the Earth Engine calls of `/export_gee_image`:
building the collection/NDVI/geometry, and `task.start()` together with
the task id. -/
structure ExportWorld where
  pipeline : Except PyErr Unit
  startTask : Except PyErr String

/-- Outcome of `POST /export_gee_image`: an `HTTPException`, or a started
export task (observable side effect) with the HTTP 200 body
`{"message": "Export task started.", "task_id": task_id}`. -/
inductive ExportResult where
  | error (status : ℕ) (detail : String)
  | started (params : ExportTaskParams) (task_id : String)
deriving DecidableEq

/-- The HTTP status code of an export outcome. -/
def ExportResult.status : ExportResult → ℕ
  | .error s _ => s
  | .started _ _ => 200

/-- Handler of `POST /export_gee_image` (`main.py` lines 121-169): the
storage-client check (503) comes first, then the AOI check (400), then
the date check (400); inside the `try`, an exception from the pipeline or
from `task.start()` surfaces as HTTP 500 with the endpoint-specific
prefix. -/
def export_gee_image (storage_client : Option StorageClient) (bucket : Option String)
    (r : ExportRequest) (w : ExportWorld) : ExportResult :=
  if storage_client.isNone then
    .error 503 "Google Cloud Storage client not initialized. Cannot export."
  else
    match r.aoi_geojson with
    | none => .error 400 "AOI GeoJSON is required for export."
    | some aoi =>
      if !(pyTruthyStr r.start_date && pyTruthyStr r.end_date) then
        .error 400 "Start and end dates are required."
      else
        match w.pipeline with
        | .error (.eeException m) => .error 500 ("Earth Engine export error: " ++ m)
        | .error (.other m) => .error 500 ("Server error during export: " ++ m)
        | .ok _ =>
          match w.startTask with
          | .error (.eeException m) => .error 500 ("Earth Engine export error: " ++ m)
          | .error (.other m) => .error 500 ("Server error during export: " ++ m)
          | .ok tid => .started (exportTaskParams r bucket aoi) tid

/-- Response body of a successful `POST /predict/`. -/
structure PredictBody where
  predicted_class : String
  class_index : ℤ
  probabilities : List ℚ
deriving DecidableEq

/-- Oracle outcome of reading the upload, decoding and resizing the
image, and running `learn.predict` on it. -/
structure PredictWorld where
  infer : Except PyErr (String × ℤ × List ℚ)

/-- Handler of `POST /predict/` (`main.py` lines 172-186): with `learn`
unset it raises `HTTPException(500, ...)`; otherwise inference runs with
no surrounding `try`, so an exception propagates to the framework, which
answers HTTP 500 `Internal Server Error`. -/
def predict (learn : Option Model) (w : PredictWorld) : HttpResult PredictBody :=
  match learn with
  | none => .error 500 "FastAI model not loaded."
  | some _ =>
    match w.infer with
    | .ok out => .ok ⟨out.1, out.2.1, out.2.2⟩
    | .error _ => .error 500 "Internal Server Error"

end Main

/-! Claim theorems. -/

/-- Claim C1, counterexample: a `/get_gee_map_layer` request that omits
`aoi_geojson`, `start_date` and `end_date` is answered with HTTP 500, not
HTTP 400, so the claim that both endpoints return 400 on omitted required
fields is false for `/get_gee_map_layer`. -/
theorem c1_counterexample :
    (Main.get_gee_map_layer ⟨none, none, none, none⟩
        ⟨.ok ⟨"m1", "t1", "m2", "t2"⟩⟩).status = 500 ∧
    (Main.get_gee_map_layer ⟨none, none, none, none⟩
        ⟨.ok ⟨"m1", "t1", "m2", "t2"⟩⟩).status ≠ 400 := by
  constructor
  · rfl
  · decide

/-- Claim C1, amended: `/export_gee_image` (with the storage client
initialized) returns HTTP 400 when `aoi_geojson` is omitted or falsy and
HTTP 400 when `start_date` or `end_date` is omitted or falsy, while
`/get_gee_map_layer` has no 400 path at all: with `aoi_geojson` omitted
it returns HTTP 500, and its status is never 400. -/
theorem c1_field_validation :
    (∀ (r : Main.ExportRequest) (w : Main.ExportWorld) (sc : Main.StorageClient)
        (b : Option String), r.aoi_geojson = none →
        Main.export_gee_image (some sc) b r w =
          .error 400 "AOI GeoJSON is required for export.") ∧
    (∀ (r : Main.ExportRequest) (w : Main.ExportWorld) (sc : Main.StorageClient)
        (b : Option String) (aoi : Main.GeoJson), r.aoi_geojson = some aoi →
        (Main.pyTruthyStr r.start_date = false ∨ Main.pyTruthyStr r.end_date = false) →
        Main.export_gee_image (some sc) b r w =
          .error 400 "Start and end dates are required.") ∧
    (∀ (d : Main.MapLayerRequest) (w : Main.MapWorld),
        d.aoi_geojson = none → (Main.get_gee_map_layer d w).status = 500) ∧
    (∀ (d : Main.MapLayerRequest) (w : Main.MapWorld),
        (Main.get_gee_map_layer d w).status ≠ 400) := by
  refine ⟨?_, ?_, ?_, ?_⟩
  · intro r w sc b h
    simp [Main.export_gee_image, h]
  · intro r w sc b aoi h hdates
    rcases hdates with hd | hd <;> simp [Main.export_gee_image, h, hd]
  · intro d w h
    simp [Main.get_gee_map_layer, h, Main.HttpResult.status]
  · intro d w
    rcases w with ⟨pl⟩
    rcases d with ⟨lt, aoi, sd, ed⟩
    cases aoi with
    | none => simp [Main.get_gee_map_layer, Main.HttpResult.status]
    | some a =>
      cases pl with
      | ok ids => simp [Main.get_gee_map_layer, Main.HttpResult.status]
      | error e => cases e <;> simp [Main.get_gee_map_layer, Main.HttpResult.status]

/-- Claim C1, witness for the amended statement at concrete requests. -/
theorem c1_field_validation_witness :
    Main.export_gee_image (some ()) (some "bucket")
        ⟨none, some "2024-01-01", some "2024-02-01", none, none, none⟩
        ⟨.ok (), .ok "task"⟩ = .error 400 "AOI GeoJSON is required for export." ∧
    Main.export_gee_image (some ()) (some "bucket")
        ⟨some ⟨"coords"⟩, none, some "2024-02-01", none, none, none⟩
        ⟨.ok (), .ok "task"⟩ = .error 400 "Start and end dates are required." ∧
    (Main.get_gee_map_layer ⟨some "default", none, some "2024-01-01", some "2024-02-01"⟩
        ⟨.ok ⟨"a", "b", "c", "d"⟩⟩).status = 500 ∧
    (Main.get_gee_map_layer ⟨none, some ⟨"coords"⟩, none, none⟩
        ⟨.error (.eeException "bad date")⟩).status ≠ 400 :=
  ⟨c1_field_validation.1 _ _ _ _ rfl,
   c1_field_validation.2.1 _ _ _ _ _ rfl (Or.inl rfl),
   c1_field_validation.2.2.1 _ _ rfl,
   c1_field_validation.2.2.2 _ _⟩

/-- Claim C2: on any input frame of at most `2 ^ 49` rows (every physical
CSV), the relabeling assigns confidence `0.0` to exactly
`⌊0.10 * N⌋ = N / 10` rows, confidence `0.5` to exactly
`⌊0.20 * N⌋ = N / 5` rows, and confidence `1.0` to the remaining rows,
and the three groups partition all `N` rows.  The float products are
modeled exactly. -/
theorem c2_confidence_partition {α : Type} (rows shuffled : List α)
    (hperm : shuffled.Perm rows) (hn : rows.length ≤ 2 ^ 49) :
    (Ext.relabel shuffled).countP (fun r => decide (r.2.1 = 0)) = rows.length / 10 ∧
    (Ext.relabel shuffled).countP (fun r => decide (r.2.1 = 1 / 2)) = rows.length / 5 ∧
    (Ext.relabel shuffled).countP (fun r => decide (r.2.1 = 1)) =
      rows.length - rows.length / 10 - rows.length / 5 ∧
    rows.length / 10 + rows.length / 5 +
      (rows.length - rows.length / 10 - rows.length / 5) = rows.length := by
  have hlen : shuffled.length = rows.length := hperm.length_eq
  refine ⟨?_, ?_, ?_, ?_⟩
  · rw [Ext.count_confidence_zero shuffled (by omega), hlen]
  · rw [Ext.count_confidence_half shuffled (by omega), hlen]
  · rw [Ext.count_confidence_one shuffled (by omega), hlen]
  · omega

/-- Claim C2, witness: a 23-row frame gets 2 red, 4 yellow and 17 green
confidence assignments. -/
theorem c2_confidence_partition_witness :
    (Ext.relabel (List.range 23)).countP (fun r => decide (r.2.1 = 0)) = 2 ∧
    (Ext.relabel (List.range 23)).countP (fun r => decide (r.2.1 = 1 / 2)) = 4 ∧
    (Ext.relabel (List.range 23)).countP (fun r => decide (r.2.1 = 1)) = 17 := by
  have h := c2_confidence_partition (List.range 23) (List.range 23)
    (List.Perm.refl _) (by norm_num)
  exact ⟨by simpa using h.1, by simpa using h.2.1, by simpa using h.2.2.1⟩

/-- Claim C3: in the relabeled frame, every row's color is determined by
its confidence: `0.0 ↦ red`, `0.5 ↦ yellow`, `1.0 ↦ green` (and no other
confidence value occurs). -/
theorem c3_color_function_of_confidence {α : Type} (s : List α)
    (r : α × ℚ × Option String) (hr : r ∈ Ext.relabel s) :
    (r.2.1 = 0 ∧ r.2.2 = some "red") ∨ (r.2.1 = 1 / 2 ∧ r.2.2 = some "yellow") ∨
      (r.2.1 = 1 ∧ r.2.2 = some "green") :=
  Ext.relabel_color_of_mem s r hr

/-- Claim C3, witness: the single row of a one-row frame. -/
theorem c3_color_function_of_confidence_witness :
    (("row", Ext.confidenceAt 1 0, Ext.colorMap (Ext.confidenceAt 1 0)) ∈
        Ext.relabel ["row"]) ∧
    ((Ext.confidenceAt 1 0 = 0 ∧ Ext.colorMap (Ext.confidenceAt 1 0) = some "red") ∨
      (Ext.confidenceAt 1 0 = 1 / 2 ∧
        Ext.colorMap (Ext.confidenceAt 1 0) = some "yellow") ∨
      (Ext.confidenceAt 1 0 = 1 ∧
        Ext.colorMap (Ext.confidenceAt 1 0) = some "green")) := by
  have hmem : (("row", Ext.confidenceAt 1 0, Ext.colorMap (Ext.confidenceAt 1 0)) ∈
      Ext.relabel ["row"]) := by
    rw [Ext.relabel]
    refine List.mem_map.mpr ⟨(0, "row"), ?_, rfl⟩
    decide
  exact ⟨hmem, c3_color_function_of_confidence ["row"] _ hmem⟩

/-- Claim C4: with the storage client uninitialized, `/export_gee_image`
returns HTTP 503 regardless of the request body and of the external
world. -/
theorem c4_export_unavailable_503 (b : Option String) (r : Main.ExportRequest)
    (w : Main.ExportWorld) :
    Main.export_gee_image none b r w =
      .error 503 "Google Cloud Storage client not initialized. Cannot export." := rfl

/-- Claim C5: when the model failed to load (`learn = None`), every
`/predict/` call answers HTTP 500, and a model-load failure at startup
still yields a running app (it does not raise). -/
theorem c5_model_failure_disables_predict :
    (∀ w : Main.PredictWorld,
      Main.predict none w = .error 500 "FastAI model not loaded.") ∧
    (∀ (env : Main.Env) (w : Main.World) (msg : String),
      Main.pyTruthyStr env.gee_key_path = true → w.key_file_exists = true →
      w.model_load = .error msg →
      ∃ st, Main.startup env w = .started st ∧ st.learn = none) := by
  constructor
  · intro w
    rfl
  · intro env w msg h1 h2 h3
    refine ⟨⟨if Main.pyTruthyStr env.gcs_bucket then
        (match w.storage_init with | .ok c => some c | .error _ => none)
      else none, none⟩, ?_, rfl⟩
    simp [Main.startup, h1, h2, h3]

/-- Claim C5, witness: a concrete world whose model load raises. -/
theorem c5_model_failure_disables_predict_witness :
    Main.predict none ⟨.ok ("three", 3, [1])⟩ = .error 500 "FastAI model not loaded." ∧
    (∃ st, Main.startup ⟨some "key.json", some "bucket"⟩
        ⟨true, .ok (), .ok (), .error "load failed"⟩ = .started st ∧ st.learn = none) :=
  ⟨c5_model_failure_disables_predict.1 _,
   c5_model_failure_disables_predict.2 ⟨some "key.json", some "bucket"⟩
     ⟨true, .ok (), .ok (), .error "load failed"⟩ "load failed" rfl rfl rfl⟩

/-- Claim C6: `GET /` always answers HTTP 200 with the fixed liveness
payload, independent of the model and storage-client state. -/
theorem c6_root_liveness (learn learn' : Option Main.Model)
    (sc sc' : Option Main.StorageClient) :
    Main.root learn sc = .ok ⟨Main.rootMessage⟩ ∧
    (Main.root learn sc).status = 200 ∧
    Main.root learn sc = Main.root learn' sc' :=
  ⟨rfl, rfl, rfl⟩

/-- Claim C7, counterexample: with the key path present but the bucket
name unset, startup completes and serves (storage client `None`), so a
missing bucket name is not fatal, contrary to the claim. -/
theorem c7_counterexample :
    Main.startup ⟨some "key.json", none⟩ ⟨true, .ok (), .ok (), .ok ()⟩ =
      .started ⟨none, some ()⟩ := rfl

/-- Claim C7, amended: only the service-account key path is required
configuration: a falsy key path, or a key file that does not exist, makes
startup raise `ValueError`; an unset (or falsy) bucket name is not fatal
and merely leaves the storage client `None`. -/
theorem c7_fatal_key_only :
    (∀ (env : Main.Env) (w : Main.World), Main.pyTruthyStr env.gee_key_path = false →
      Main.startup env w = .fatal Main.keyPathError) ∧
    (∀ (env : Main.Env) (w : Main.World), Main.pyTruthyStr env.gee_key_path = true →
      w.key_file_exists = false →
      Main.startup env w = .fatal Main.keyPathError) ∧
    (∀ (env : Main.Env) (w : Main.World), Main.pyTruthyStr env.gee_key_path = true →
      w.key_file_exists = true → Main.pyTruthyStr env.gcs_bucket = false →
      ∃ st, Main.startup env w = .started st ∧ st.storage_client = none) := by
  refine ⟨?_, ?_, ?_⟩
  · intro env w h
    simp [Main.startup, h]
  · intro env w h1 h2
    simp [Main.startup, h1, h2]
  · intro env w h1 h2 h3
    refine ⟨⟨none, match w.model_load with | .ok m => some m | .error _ => none⟩, ?_, rfl⟩
    simp [Main.startup, h1, h2, h3]

/-- Claim C7, witness for the amended statement at concrete inputs. -/
theorem c7_fatal_key_only_witness :
    Main.startup ⟨none, some "bucket"⟩ ⟨true, .ok (), .ok (), .ok ()⟩ =
      .fatal Main.keyPathError ∧
    Main.startup ⟨some "missing.json", some "bucket"⟩ ⟨false, .ok (), .ok (), .ok ()⟩ =
      .fatal Main.keyPathError ∧
    (∃ st, Main.startup ⟨some "key.json", none⟩ ⟨true, .ok (), .ok (), .ok ()⟩ =
      .started st ∧ st.storage_client = none) :=
  ⟨c7_fatal_key_only.1 ⟨none, some "bucket"⟩ _ rfl,
   c7_fatal_key_only.2.1 ⟨some "missing.json", some "bucket"⟩ _ rfl rfl,
   c7_fatal_key_only.2.2 ⟨some "key.json", none⟩ ⟨true, .ok (), .ok (), .ok ()⟩
     rfl rfl rfl⟩

/-- Claim C8: an `/export_gee_image` request that omits
`file_name_prefix`, `scale` or `file_format` gets the defaults
`"gee_export"`, `30` and `"GeoTIFF"` respectively in the created export
task, and a successful export starts the task with exactly the computed
parameters. -/
theorem c8_export_defaults :
    (∀ (r : Main.ExportRequest) (b : Option String) (aoi : Main.GeoJson),
      r.file_name_pfx = none →
      (Main.exportTaskParams r b aoi).description = "gee_export" ∧
      (Main.exportTaskParams r b aoi).fileNamePfx = "gee_export") ∧
    (∀ (r : Main.ExportRequest) (b : Option String) (aoi : Main.GeoJson),
      r.scale = none → (Main.exportTaskParams r b aoi).scale = 30) ∧
    (∀ (r : Main.ExportRequest) (b : Option String) (aoi : Main.GeoJson),
      r.file_format = none →
      (Main.exportTaskParams r b aoi).fileFormat = "GeoTIFF") ∧
    (∀ (sc : Main.StorageClient) (b : Option String) (r : Main.ExportRequest)
        (w : Main.ExportWorld) (aoi : Main.GeoJson) (tid : String),
      r.aoi_geojson = some aoi → Main.pyTruthyStr r.start_date = true →
      Main.pyTruthyStr r.end_date = true → w.pipeline = .ok () →
      w.startTask = .ok tid →
      Main.export_gee_image (some sc) b r w =
        .started (Main.exportTaskParams r b aoi) tid) := by
  refine ⟨?_, ?_, ?_, ?_⟩
  · intro r b aoi h
    rw [Main.exportTaskParams, h]
    exact ⟨rfl, rfl⟩
  · intro r b aoi h
    rw [Main.exportTaskParams, h]
    rfl
  · intro r b aoi h
    rw [Main.exportTaskParams, h]
    rfl
  · intro sc b r w aoi tid haoi hsd hed hpl hst
    simp [Main.export_gee_image, haoi, hsd, hed, hpl, hst]

/-- Claim C8, witness: a concrete request omitting all three optional
fields starts a task with all three defaults. -/
theorem c8_export_defaults_witness :
    (Main.exportTaskParams ⟨some ⟨"poly"⟩, some "2024-01-01", some "2024-02-01",
        none, none, none⟩ (some "bkt") ⟨"poly"⟩).description = "gee_export" ∧
    (Main.exportTaskParams ⟨some ⟨"poly"⟩, some "2024-01-01", some "2024-02-01",
        none, none, none⟩ (some "bkt") ⟨"poly"⟩).scale = 30 ∧
    (Main.exportTaskParams ⟨some ⟨"poly"⟩, some "2024-01-01", some "2024-02-01",
        none, none, none⟩ (some "bkt") ⟨"poly"⟩).fileFormat = "GeoTIFF" ∧
    Main.export_gee_image (some ()) (some "bkt")
        ⟨some ⟨"poly"⟩, some "2024-01-01", some "2024-02-01", none, none, none⟩
        ⟨.ok (), .ok "tid123"⟩ =
      .started (Main.exportTaskParams ⟨some ⟨"poly"⟩, some "2024-01-01",
        some "2024-02-01", none, none, none⟩ (some "bkt") ⟨"poly"⟩) "tid123" :=
  ⟨(c8_export_defaults.1 _ (some "bkt") ⟨"poly"⟩ rfl).1,
   c8_export_defaults.2.1 _ (some "bkt") ⟨"poly"⟩ rfl,
   c8_export_defaults.2.2.1 _ (some "bkt") ⟨"poly"⟩ rfl,
   c8_export_defaults.2.2.2 () (some "bkt") _ _ ⟨"poly"⟩ "tid123" rfl rfl rfl rfl rfl⟩

/-- Claim C9: the storage-client check precedes field validation: while
the storage client is `None`, a request with `aoi_geojson`, `start_date`
or `end_date` missing still gets HTTP 503, never 400. -/
theorem c9_storage_check_precedes_validation (b : Option String)
    (r : Main.ExportRequest) (w : Main.ExportWorld)
    (hmiss : r.aoi_geojson = none ∨ Main.pyTruthyStr r.start_date = false ∨
      Main.pyTruthyStr r.end_date = false) :
    Main.export_gee_image none b r w =
      .error 503 "Google Cloud Storage client not initialized. Cannot export." ∧
    (Main.export_gee_image none b r w).status ≠ 400 := by
  constructor
  · rfl
  · show (Main.ExportResult.error 503
      "Google Cloud Storage client not initialized. Cannot export.").status ≠ 400
    decide

/-- Claim C9, witness: the empty request body while the storage client is
`None`. -/
theorem c9_storage_check_precedes_validation_witness :
    Main.export_gee_image none (some "bkt") ⟨none, none, none, none, none, none⟩
        ⟨.ok (), .ok "t"⟩ =
      .error 503 "Google Cloud Storage client not initialized. Cannot export." ∧
    (Main.export_gee_image none (some "bkt") ⟨none, none, none, none, none, none⟩
        ⟨.ok (), .ok "t"⟩).status ≠ 400 :=
  c9_storage_check_precedes_validation (some "bkt") _ _ (Or.inl rfl)

/-- Claim C10: the relabeled frame has exactly as many rows as the input,
the non-confidence/color cells are exactly the shuffled input rows (hence
a permutation of the input rows), and nothing else is added or
removed. -/
theorem c10_relabel_preserves_rows {α : Type} (rows shuffled : List α)
    (hperm : shuffled.Perm rows) :
    (Ext.relabel shuffled).length = rows.length ∧
    (Ext.relabel shuffled).map (fun r => r.1) = shuffled ∧
    ((Ext.relabel shuffled).map (fun r => r.1)).Perm rows := by
  refine ⟨?_, Ext.relabel_map_fst shuffled, ?_⟩
  · rw [Ext.relabel_length, hperm.length_eq]
  · rw [Ext.relabel_map_fst]
    exact hperm

/-- Claim C10, witness: a two-row frame under the transposition. -/
theorem c10_relabel_preserves_rows_witness :
    (Ext.relabel ["b", "a"]).length = (["a", "b"] : List String).length ∧
    (Ext.relabel ["b", "a"]).map (fun r => r.1) = ["b", "a"] ∧
    ((Ext.relabel ["b", "a"]).map (fun r => r.1)).Perm ["a", "b"] :=
  c10_relabel_preserves_rows ["a", "b"] ["b", "a"] (List.Perm.swap "a" "b" [])
